import Mathlib

/-!
Verification of the generation route of cf-flux-remix
(src/app/routes/generate-image.tsx) against its design document.

The route consists of
  - a loader that probes backend connectivity (testCfAiConnection), logs
    the outcome, and returns the model catalog;
  - an action that validates the submitted form fields, optionally
    rewrites the prompt with the enhancement marker, dispatches one call
    to the external image-generation collaborator, and translates the
    outcome into an HTTP response;
  - a client-side submit handler that suppresses a submission attempt
    while a prior one is in flight.

The embedding below mirrors the TypeScript line by line.  Form fields are
Option String (none models an absent field, i.e. a JavaScript null).  The
external collaborator is a parameter: a function from the dispatched call
to an outcome.  The action returns, next to its response, the list of
collaborator calls it performed, so that claims about the presence or
absence of outbound calls are statable.
-/

/-- Whitespace characters skipped by JavaScript parseInt. -/
def jsWhitespace (c : Char) : Bool :=
  c == ' ' || c == '\t' || c == '\n' || c == '\r'

/-- Longest run of leading decimal digits of a character list. -/
def leadingDigits : List Char → List Char
  | [] => []
  | c :: cs => if c.isDigit then c :: leadingDigits cs else []

/-- Numeric value of a run of decimal digits. -/
def digitsVal (ds : List Char) : Nat :=
  ds.foldl (fun a c => 10 * a + (c.toNat - 48)) 0

/-- Model of JavaScript parseInt(s, 10): skip leading whitespace, read an
optional sign and then a maximal run of decimal digits; none models NaN
(no digits found). -/
def jsParseInt (s : String) : Option Int :=
  match s.data.dropWhile jsWhitespace with
  | '-' :: rest =>
      match leadingDigits rest with
      | [] => none
      | ds => some (-(digitsVal ds : Int))
  | '+' :: rest =>
      match leadingDigits rest with
      | [] => none
      | ds => some ((digitsVal ds : Int))
  | cs =>
      match leadingDigits cs with
      | [] => none
      | ds => some ((digitsVal ds : Int))

/-- The raw form fields of a submission, as read by the action via
formData.get: none models an absent field (JavaScript null). -/
structure FormData where
  prompt : Option String
  enhance : Option String
  model : Option String
  size : Option String
  numSteps : Option String
deriving Repr, DecidableEq

/-- The result returned by the collaborator's generateImage, as consumed
by the route (fields image, prompt, translatedPrompt). -/
structure GenerationResult where
  image : String
  prompt : String
  translatedPrompt : String
deriving Repr, DecidableEq

/-- Modelled from the spec: the typed application error (AppError, from
../utils/error, not part of the reviewed sources) carries a message and
an optional HTTP status code; the outcome of a generateImage call is
success, an AppError, or any other thrown value. -/
inductive CollabOutcome where
  | ok : GenerationResult → CollabOutcome
  | appErr : (message : String) → (status : Option Nat) → CollabOutcome
  | unknownErr : CollabOutcome
deriving Repr, DecidableEq

/-- The arguments of one generateImage call: (prompt, model, size,
numSteps).  size is passed through unvalidated (none = null); numSteps
is the parseInt result (none = NaN). -/
structure DispatchCall where
  prompt : String
  model : String
  size : Option String
  numSteps : Option Int
deriving Repr, DecidableEq

/-- The body of a json(...) response of the action: either an object with
an error string, or the collaborator result passed through verbatim. -/
inductive ResponseBody where
  | errMsg : String → ResponseBody
  | result : GenerationResult → ResponseBody
deriving Repr, DecidableEq

/-- An HTTP response of the action: status code and body.  json(data)
without an init carries status 200. -/
structure Response where
  status : Nat
  body : ResponseBody
deriving Repr, DecidableEq

/-- Lookup in config.CUSTOMER_MODEL_MAP, modelled as an association list
from model id to backend model identifier. -/
def lookupModel : List (String × String) → String → Option String
  | [], _ => none
  | (k, v) :: rest, key => if key = k then some v else lookupModel rest key

/-- error.status || 500: a missing (or zero, i.e. falsy) status falls
back to 500. -/
def appErrStatus : Option Nat → Nat
  | none => 500
  | some s => if s = 0 then 500 else s

/-- The call the action builds once validation passed (line 54-59):
prompt gets the enhancement marker prefixed when enhance held the literal
string "true"; numSteps is parseInt of the raw field, where an absent
field reads as the string "null" (JavaScript null coerced by parseInt). -/
def builtCall (fd : FormData) (p m : String) : DispatchCall :=
  { prompt := if fd.enhance = some "true" then "---tl " ++ p else p
    model := m
    size := fd.size
    numSteps := jsParseInt (fd.numSteps.getD "null") }

/-- Translation of the collaborator outcome into the response
(lines 53-68): success is json(result) (status 200); an AppError yields
its status (or 500) and the message embedded in the error string; any
other failure yields 500 and a generic error string. -/
def respondToOutcome : CollabOutcome → Response
  | .ok r => { status := 200, body := .result r }
  | .appErr msg st =>
      { status := appErrStatus st, body := .errMsg ("生成图片失败: " ++ msg) }
  | .unknownErr => { status := 500, body := .errMsg "生成图片失败: 未知错误" }

/-- The action (lines 28-69).  It reads the form fields, rejects a falsy
prompt (absent or empty) with 400, rejects a modelId whose catalog value
is falsy (absent or empty) with 400, and otherwise performs exactly one
collaborator call and translates its outcome.  An absent model field
reads as the property key "null" (JavaScript null coerced to a string
key).  The second component is the list of collaborator calls made. -/
def action (catalog : List (String × String))
    (collab : DispatchCall → CollabOutcome) (fd : FormData) :
    Response × List DispatchCall :=
  match fd.prompt with
  | none => ({ status := 400, body := .errMsg "未找到提示词" }, [])
  | some p =>
    if p = "" then ({ status := 400, body := .errMsg "未找到提示词" }, [])
    else
      match lookupModel catalog (fd.model.getD "null") with
      | none => ({ status := 400, body := .errMsg "无效的模型" }, [])
      | some m =>
        if m = "" then ({ status := 400, body := .errMsg "无效的模型" }, [])
        else
          (respondToOutcome (collab (builtCall fd p m)), [builtCall fd p m])

/-- Outcome of the advisory connectivity probe
(imageGenerationService.testCfAiConnection) performed by the loader. -/
inductive ProbeOutcome where
  | ok : ProbeOutcome
  | failed : String → ProbeOutcome
deriving Repr, DecidableEq

/-- The data the loader returns: the model catalog rendered as a list of
objects with id and value. -/
structure LoaderData where
  models : List (String × Option String)
deriving Repr, DecidableEq

/-- The loader (lines 8-26): it performs the connectivity probe, logs its
outcome (second component: the console line), and returns the model list
built from config.CUSTOMER_MODEL_MAP regardless of the probe outcome —
the try/catch swallows a probe failure. -/
def loader (catalog : List (String × String)) (probe : ProbeOutcome) :
    LoaderData × String :=
  let logLine :=
    match probe with
    | .ok => "Cloudflare AI connection test successful"
    | .failed e => "Cloudflare AI connection test failed: " ++ e
  ({ models := catalog.map (fun kv => (kv.1, lookupModel catalog kv.1)) },
   logLine)

/-- Client session state: inFlight mirrors navigation.state ==
"submitting"; pending counts requests dispatched and not yet resolved. -/
structure ClientSession where
  inFlight : Bool
  pending : Nat
deriving Repr, DecidableEq

/-- Initial client session state: idle, nothing in flight. -/
def clientInit : ClientSession := { inFlight := false, pending := 0 }

/-- Events of the client session: a submit attempt (the user activating
the form's submit), and the response to the in-flight request arriving. -/
inductive ClientEvent where
  | submitAttempt : ClientEvent
  | respond : ClientEvent
deriving Repr, DecidableEq

/-- The client-side transition (handleSubmit, lines 99-103, and the
navigation lifecycle): a submit attempt while submitting calls
e.preventDefault() and changes nothing — no request is dispatched; an
attempt while idle dispatches the request (pending grows) and navigation
enters the submitting state; a response returns navigation to idle and
resolves the pending request. -/
def clientStep (s : ClientSession) : ClientEvent → ClientSession
  | .submitAttempt =>
      if s.inFlight then s else { inFlight := true, pending := s.pending + 1 }
  | .respond => { inFlight := false, pending := s.pending - 1 }

/-- Run the client session over a list of events. -/
def clientRun : ClientSession → List ClientEvent → ClientSession
  | s, [] => s
  | s, e :: es => clientRun (clientStep s e) es

/-- The characters of the enhancement marker prefixed to the prompt. -/
def markerChars : List Char := ("---tl " : String).data

/-- Number of positions of a character list (its end included) at which
pat occurs as a contiguous block. -/
def countOcc (pat : List Char) : List Char → Nat
  | [] => if List.isPrefixOf pat ([] : List Char) then 1 else 0
  | c :: cs => (if List.isPrefixOf pat (c :: cs) then 1 else 0) + countOcc pat cs

/-! ### Concrete instances used by witnesses and counterexamples -/

/-- A one-entry model catalog in the shape of CUSTOMER_MODEL_MAP. -/
def demoCatalog : List (String × String) :=
  [("FLUX.1-Schnell-CF", "@cf/black-forest-labs/flux-1-schnell")]

/-- A concrete collaborator result. -/
def demoResult : GenerationResult :=
  { image := "aW1nZGF0YQ==", prompt := "a cat", translatedPrompt := "a cat" }

/-- A collaborator that always succeeds with demoResult. -/
def demoOkCollab : DispatchCall → CollabOutcome := fun _ => .ok demoResult

/-- A well-formed submission with enhancement requested. -/
def demoForm : FormData :=
  { prompt := some "a cat", enhance := some "true",
    model := some "FLUX.1-Schnell-CF", size := some "1024x1024",
    numSteps := some "6" }

/-! ### Helper lemmas -/

/-- The enhancement marker, written as an explicit character list. -/
theorem markerChars_eq : markerChars = ['-', '-', '-', 't', 'l', ' '] := rfl

/-- Prefixing the marker adds exactly one occurrence of it: the five
shifted positions straddling the boundary all mismatch the marker within
its own characters, for every continuation p. -/
theorem countOcc_marker_append (p : List Char) :
    countOcc markerChars (markerChars ++ p) = 1 + countOcc markerChars p := by
  rw [markerChars_eq]
  show countOcc ['-', '-', '-', 't', 'l', ' ']
        ('-' :: '-' :: '-' :: 't' :: 'l' :: ' ' :: p)
      = 1 + countOcc ['-', '-', '-', 't', 'l', ' '] p
  simp [countOcc, List.isPrefixOf]

/-- Once both validations pass, the action is one collaborator call on
the built arguments, and its response is the translated outcome. -/
theorem action_valid (catalog : List (String × String))
    (collab : DispatchCall → CollabOutcome) (fd : FormData) (p m : String)
    (hp : fd.prompt = some p) (hpne : p ≠ "")
    (hm : lookupModel catalog (fd.model.getD "null") = some m) (hmne : m ≠ "") :
    action catalog collab fd
      = (respondToOutcome (collab (builtCall fd p m)), [builtCall fd p m]) := by
  unfold action
  rw [hp, hm]
  simp [hpne, hmne]

/-! ### Claims -/

/-- C1: For every submission that passes validation (non-empty prompt,
resolvable modelId), the prompt dispatched to the collaborator equals the
fixed enhancement marker "---tl " concatenated with the original prompt
when enhance is true — the marker concatenated exactly once: prefixing
adds exactly one occurrence of the marker, so when the original prompt is
free of it (the in-scope case) the dispatched prompt holds it exactly
once — and equals the original prompt unchanged when enhance is false. -/
theorem c1_dispatched_prompt (catalog : List (String × String))
    (collab : DispatchCall → CollabOutcome) (fd : FormData) (p m : String)
    (e : Bool)
    (hp : fd.prompt = some p) (hpne : p ≠ "")
    (hm : lookupModel catalog (fd.model.getD "null") = some m) (hmne : m ≠ "")
    (he : fd.enhance = some (if e then "true" else "false")) :
    (action catalog collab fd).2.map DispatchCall.prompt
        = [if e then "---tl " ++ p else p]
    ∧ countOcc markerChars (("---tl " ++ p) : String).data
        = 1 + countOcc markerChars p.data := by
  constructor
  · rw [action_valid catalog collab fd p m hp hpne hm hmne]
    cases e with
    | true => simp [builtCall, he]
    | false => simp [builtCall, he]
  · rw [String.data_append]
    exact countOcc_marker_append p.data

/-- Witness for C1 at a concrete submission: with enhance true the
dispatched prompt is "---tl a cat", and the marker occurs in it exactly
once since "a cat" is free of it. -/
theorem c1_witness :
    (action demoCatalog demoOkCollab demoForm).2.map DispatchCall.prompt
        = [if true then "---tl " ++ "a cat" else "a cat"]
    ∧ countOcc markerChars (("---tl " ++ "a cat") : String).data
        = 1 + countOcc markerChars ("a cat" : String).data :=
  c1_dispatched_prompt demoCatalog demoOkCollab demoForm "a cat"
    "@cf/black-forest-labs/flux-1-schnell" true rfl (by decide) rfl
    (by decide) rfl

/-- C2: a submission whose prompt field is empty (or absent, which the
falsy check treats alike) is answered with the 400 validation error and
the collaborator is never called. -/
theorem c2_empty_prompt_rejected (catalog : List (String × String))
    (collab : DispatchCall → CollabOutcome) (fd : FormData)
    (h : fd.prompt = some "" ∨ fd.prompt = none) :
    (action catalog collab fd).1.status = 400
    ∧ (action catalog collab fd).1.body = .errMsg "未找到提示词"
    ∧ (action catalog collab fd).2 = [] := by
  rcases h with h | h <;> unfold action <;> rw [h] <;> simp

/-- Witness for C2: the demo submission with its prompt emptied is
rejected with 400 and no call. -/
theorem c2_witness :
    (action demoCatalog demoOkCollab { demoForm with prompt := some "" }).1.status = 400
    ∧ (action demoCatalog demoOkCollab { demoForm with prompt := some "" }).1.body
        = .errMsg "未找到提示词"
    ∧ (action demoCatalog demoOkCollab { demoForm with prompt := some "" }).2 = [] :=
  c2_empty_prompt_rejected demoCatalog demoOkCollab
    { demoForm with prompt := some "" } (Or.inl rfl)

/-- C3: a submission whose modelId has no entry in CUSTOMER_MODEL_MAP is
answered with a 400 validation error (the model error, or the prompt
error when the prompt is also empty) and the collaborator is never
called. -/
theorem c3_unknown_model_rejected (catalog : List (String × String))
    (collab : DispatchCall → CollabOutcome) (fd : FormData)
    (h : lookupModel catalog (fd.model.getD "null") = none) :
    (action catalog collab fd).1.status = 400
    ∧ ((action catalog collab fd).1.body = .errMsg "无效的模型"
       ∨ (action catalog collab fd).1.body = .errMsg "未找到提示词")
    ∧ (action catalog collab fd).2 = [] := by
  unfold action
  cases hfp : fd.prompt with
  | none => simp
  | some p =>
      by_cases hp : p = "" <;> simp [hp, h]

/-- Witness for C3: a submission naming a model absent from the demo
catalog is rejected with 400 and no call. -/
theorem c3_witness :
    (action demoCatalog demoOkCollab { demoForm with model := some "no-such" }).1.status = 400
    ∧ ((action demoCatalog demoOkCollab { demoForm with model := some "no-such" }).1.body
          = .errMsg "无效的模型"
       ∨ (action demoCatalog demoOkCollab { demoForm with model := some "no-such" }).1.body
          = .errMsg "未找到提示词")
    ∧ (action demoCatalog demoOkCollab { demoForm with model := some "no-such" }).2 = [] :=
  c3_unknown_model_rejected demoCatalog demoOkCollab
    { demoForm with model := some "no-such" } (by decide)

/-- Counterexample for C4: a collaborator failure that is an AppError
carrying no status code is, per the claim, "any other failure" and should
yield the generic message; the code instead answers 500 with an error
string embedding the specific message "overloaded", which differs from
the generic error body. -/
theorem c4_counterexample :
    (action demoCatalog (fun _ => .appErr "overloaded" none) demoForm).1
        = { status := 500, body := .errMsg "生成图片失败: overloaded" }
    ∧ ({ status := 500, body := .errMsg "生成图片失败: overloaded" } : Response)
        ≠ { status := 500, body := .errMsg "生成图片失败: 未知错误" } := by
  decide

/-- C4 (amended): for a validated submission, an AppError failure is
answered with its carried status when present and nonzero (500
otherwise), and an error string containing the error's message; a
non-AppError failure is answered 500 with the generic message. -/
theorem c4_error_translation (catalog : List (String × String))
    (collab : DispatchCall → CollabOutcome) (fd : FormData) (p m : String)
    (hp : fd.prompt = some p) (hpne : p ≠ "")
    (hm : lookupModel catalog (fd.model.getD "null") = some m) (hmne : m ≠ "") :
    (∀ msg st, collab (builtCall fd p m) = .appErr msg st →
        (action catalog collab fd).1.status = appErrStatus st
        ∧ (action catalog collab fd).1.body = .errMsg ("生成图片失败: " ++ msg)
        ∧ ∃ a b, ("生成图片失败: " ++ msg) = a ++ (msg ++ b))
    ∧ (collab (builtCall fd p m) = .unknownErr →
        (action catalog collab fd).1
          = { status := 500, body := .errMsg "生成图片失败: 未知错误" }) := by
  rw [action_valid catalog collab fd p m hp hpne hm hmne]
  constructor
  · intro msg st hst
    refine ⟨by simp [hst, respondToOutcome], by simp [hst, respondToOutcome], ?_⟩
    exact ⟨"生成图片失败: ", "", by simp⟩
  · intro hu
    simp [hu, respondToOutcome]

/-- Witness for C4 at the claim's own example: an AppError with status
503 and message "overloaded" yields status 503 and an error string
containing "overloaded". -/
theorem c4_witness :
    ((action demoCatalog (fun _ => .appErr "overloaded" (some 503)) demoForm).1.status
        = appErrStatus (some 503)
     ∧ (action demoCatalog (fun _ => .appErr "overloaded" (some 503)) demoForm).1.body
        = .errMsg ("生成图片失败: " ++ "overloaded")
     ∧ ∃ a b, ("生成图片失败: " ++ "overloaded") = a ++ ("overloaded" ++ b))
    ∧ appErrStatus (some 503) = 503 :=
  ⟨(c4_error_translation demoCatalog (fun _ => .appErr "overloaded" (some 503))
      demoForm "a cat" "@cf/black-forest-labs/flux-1-schnell"
      rfl (by decide) rfl (by decide)).1 "overloaded" (some 503) rfl,
   rfl⟩

/-- C5: for a validated submission on which the collaborator succeeds
with result R, the response has status 200 and carries R verbatim (its
image, prompt and translatedPrompt fields untouched). -/
theorem c5_success_passthrough (catalog : List (String × String))
    (collab : DispatchCall → CollabOutcome) (fd : FormData) (p m : String)
    (r : GenerationResult)
    (hp : fd.prompt = some p) (hpne : p ≠ "")
    (hm : lookupModel catalog (fd.model.getD "null") = some m) (hmne : m ≠ "")
    (hok : collab (builtCall fd p m) = .ok r) :
    (action catalog collab fd).1.status = 200
    ∧ (action catalog collab fd).1.body = .result r := by
  rw [action_valid catalog collab fd p m hp hpne hm hmne]
  simp [hok, respondToOutcome]

/-- Witness for C5: the demo submission with the always-succeeding
collaborator is answered 200 with demoResult verbatim. -/
theorem c5_witness :
    (action demoCatalog demoOkCollab demoForm).1.status = 200
    ∧ (action demoCatalog demoOkCollab demoForm).1.body = .result demoResult :=
  c5_success_passthrough demoCatalog demoOkCollab demoForm "a cat"
    "@cf/black-forest-labs/flux-1-schnell" demoResult
    rfl (by decide) rfl (by decide) rfl

/-- The demo submission with a numSteps field outside the documented
range: the action performs no range check on it. -/
def stepsForm : FormData := { demoForm with numSteps := some "100" }

/-- Counterexample for C6: a validated submission whose numSteps field is
"100" is dispatched to the collaborator with numSteps 100, which is not
in the range [4,8]: the action never validates the range. -/
theorem c6_counterexample :
    (action demoCatalog demoOkCollab stepsForm).2.map DispatchCall.numSteps
        = [some 100]
    ∧ ¬ ((4 : Int) ≤ 100 ∧ (100 : Int) ≤ 8) := by
  decide

/-- C6 (amended): for a validated submission, the numSteps dispatched to
the collaborator is the JavaScript parseInt of the submitted numSteps
field, with no server-side range check; whenever that field parses to an
integer n with 4 ≤ n ≤ 8 — which the client's range input (min 4, max 8)
produces — the dispatched value is n, an integer in [4,8]. -/
theorem c6_numsteps_passthrough (catalog : List (String × String))
    (collab : DispatchCall → CollabOutcome) (fd : FormData) (p m : String)
    (hp : fd.prompt = some p) (hpne : p ≠ "")
    (hm : lookupModel catalog (fd.model.getD "null") = some m) (hmne : m ≠ "") :
    (action catalog collab fd).2.map DispatchCall.numSteps
        = [jsParseInt (fd.numSteps.getD "null")]
    ∧ (∀ n : Int, jsParseInt (fd.numSteps.getD "null") = some n →
        4 ≤ n → n ≤ 8 →
        (action catalog collab fd).2.map DispatchCall.numSteps = [some n]
        ∧ 4 ≤ n ∧ n ≤ 8) := by
  rw [action_valid catalog collab fd p m hp hpne hm hmne]
  refine ⟨by simp [builtCall], ?_⟩
  intro n hn h4 h8
  exact ⟨by simp [builtCall, hn], h4, h8⟩

/-- Witness for C6 (amended): the demo submission's numSteps field "6"
parses to 6 and is dispatched as 6, in [4,8]. -/
theorem c6_witness :
    ((action demoCatalog demoOkCollab demoForm).2.map DispatchCall.numSteps
        = [some 6]
     ∧ (4 : Int) ≤ 6 ∧ (6 : Int) ≤ 8) :=
  (c6_numsteps_passthrough demoCatalog demoOkCollab demoForm "a cat"
      "@cf/black-forest-labs/flux-1-schnell"
      rfl (by decide) rfl (by decide)).2 6 rfl (by decide) (by decide)

/-- C7: the loader performs the connectivity probe and logs its outcome
(the log line distinguishes success from failure), while the data it
serves is the same whatever the probe outcome — a probe failure is
swallowed and never fails the request. -/
theorem c7_probe_advisory (catalog : List (String × String)) :
    (∀ p q : ProbeOutcome, (loader catalog p).1 = (loader catalog q).1)
    ∧ (loader catalog .ok).2 = "Cloudflare AI connection test successful"
    ∧ (∀ e, (loader catalog (.failed e)).2
        = "Cloudflare AI connection test failed: " ++ e) :=
  ⟨fun _ _ => rfl, rfl, fun _ => rfl⟩

/-- One client transition preserves the coupling between the pending
request count and the navigation state. -/
theorem clientStep_pending_inv (s : ClientSession) (e : ClientEvent)
    (h : s.pending = if s.inFlight then 1 else 0) :
    (clientStep s e).pending = if (clientStep s e).inFlight then 1 else 0 := by
  cases e with
  | submitAttempt =>
      cases hf : s.inFlight <;> simp [hf] at h <;> simp [clientStep, hf, h]
  | respond =>
      cases hf : s.inFlight <;> simp [hf] at h <;> simp [clientStep, h]

/-- Along any event run, the pending request count stays coupled to the
navigation state. -/
theorem clientRun_pending_inv (evs : List ClientEvent) (s : ClientSession)
    (h : s.pending = if s.inFlight then 1 else 0) :
    (clientRun s evs).pending
      = if (clientRun s evs).inFlight then 1 else 0 := by
  induction evs generalizing s with
  | nil => exact h
  | cons e es ih =>
      have hstep := clientStep_pending_inv s e h
      simpa [clientRun] using ih (clientStep s e) hstep

/-- C8: a submit attempt while a submission is in flight is a no-op —
the session state is unchanged and no second request is dispatched — and
along every event run from the initial session at most one request is
ever pending (in flight) at a time. -/
theorem c8_inflight_suppression :
    (∀ s : ClientSession, s.inFlight = true → clientStep s .submitAttempt = s)
    ∧ (∀ evs : List ClientEvent, (clientRun clientInit evs).pending ≤ 1) := by
  constructor
  · intro s hs
    simp [clientStep, hs]
  · intro evs
    have h := clientRun_pending_inv evs clientInit (by simp [clientInit])
    rw [h]
    split <;> omega

/-- Witness for C8: a submit attempt in a concrete in-flight session
changes nothing, and the run submit-submit-respond-submit never exceeds
one pending request. -/
theorem c8_witness :
    clientStep { inFlight := true, pending := 1 } .submitAttempt
        = { inFlight := true, pending := 1 }
    ∧ (clientRun clientInit
        [.submitAttempt, .submitAttempt, .respond, .submitAttempt]).pending ≤ 1 :=
  ⟨c8_inflight_suppression.1 { inFlight := true, pending := 1 } rfl,
   c8_inflight_suppression.2 [.submitAttempt, .submitAttempt, .respond, .submitAttempt]⟩

/-- The demo submission with its prompt emptied: validation fails and no
collaborator call is made. -/
def emptyPromptForm : FormData := { demoForm with prompt := some "" }

/-- Counterexample for C9: an invocation of the action on a submission
with an empty prompt performs zero outbound calls, not exactly one. -/
theorem c9_counterexample :
    (action demoCatalog demoOkCollab emptyPromptForm).2.length = 0
    ∧ (0 : Nat) ≠ 1 := by
  decide

/-- C9 (amended): every invocation of the action performs at most one
outbound collaborator call; when validation passes it performs exactly
one, and the response is the translation of that call's awaited outcome
(the response is a function of the collaborator's result on the single
dispatched call). -/
theorem c9_single_call (catalog : List (String × String))
    (collab : DispatchCall → CollabOutcome) (fd : FormData) :
    (action catalog collab fd).2.length ≤ 1
    ∧ (∀ p m, fd.prompt = some p → p ≠ "" →
        lookupModel catalog (fd.model.getD "null") = some m → m ≠ "" →
        (action catalog collab fd).2 = [builtCall fd p m]
        ∧ (action catalog collab fd).1
            = respondToOutcome (collab (builtCall fd p m))) := by
  constructor
  · unfold action
    cases hfp : fd.prompt with
    | none => simp
    | some p =>
        by_cases hp : p = ""
        · simp [hp]
        · cases hm : lookupModel catalog (fd.model.getD "null") with
          | none => simp [hp, hm]
          | some m => by_cases hmne : m = "" <;> simp [hp, hm, hmne]
  · intro p m hp hpne hm hmne
    rw [action_valid catalog collab fd p m hp hpne hm hmne]
    exact ⟨rfl, rfl⟩

/-- Witness for C9 (amended): the demo submission is served through
exactly one collaborator call, and the response translates its outcome. -/
theorem c9_witness :
    (action demoCatalog demoOkCollab demoForm).2.length ≤ 1
    ∧ ((action demoCatalog demoOkCollab demoForm).2
        = [builtCall demoForm "a cat" "@cf/black-forest-labs/flux-1-schnell"]
       ∧ (action demoCatalog demoOkCollab demoForm).1
        = respondToOutcome (demoOkCollab
            (builtCall demoForm "a cat" "@cf/black-forest-labs/flux-1-schnell"))) :=
  ⟨(c9_single_call demoCatalog demoOkCollab demoForm).1,
   (c9_single_call demoCatalog demoOkCollab demoForm).2 "a cat"
     "@cf/black-forest-labs/flux-1-schnell" rfl (by decide) rfl (by decide)⟩

/-- C10: for a validated submission, the action treats enhancement as
requested exactly when the raw enhance field holds the literal string
"true": then the dispatched prompt carries the marker; for every other
value of the field — another string or an absent field — the prompt is
dispatched unchanged. -/
theorem c10_enhance_literal (catalog : List (String × String))
    (collab : DispatchCall → CollabOutcome) (fd : FormData) (p m : String)
    (hp : fd.prompt = some p) (hpne : p ≠ "")
    (hm : lookupModel catalog (fd.model.getD "null") = some m) (hmne : m ≠ "") :
    (fd.enhance = some "true" →
        (action catalog collab fd).2.map DispatchCall.prompt = ["---tl " ++ p])
    ∧ (fd.enhance ≠ some "true" →
        (action catalog collab fd).2.map DispatchCall.prompt = [p]) := by
  rw [action_valid catalog collab fd p m hp hpne hm hmne]
  constructor
  · intro he
    simp [builtCall, he]
  · intro he
    simp [builtCall, he]

/-- Witness for C10: with the enhance field absent the demo submission's
prompt is dispatched without the marker. -/
theorem c10_witness :
    (action demoCatalog demoOkCollab { demoForm with enhance := none }).2.map
        DispatchCall.prompt = ["a cat"] :=
  (c10_enhance_literal demoCatalog demoOkCollab { demoForm with enhance := none }
      "a cat" "@cf/black-forest-labs/flux-1-schnell"
      rfl (by decide) rfl (by decide)).2 (by decide)
